import Mathlib

/-!
Verification of the PersonaNet virtual try-on storefront.

Shallow embedding of the TypeScript sources:
- `src/lib/products.ts` (catalog, `getProducts`, `getProductById`),
- `src/ai/flows/generate-ai-try-on.ts` (`generateAiTryOn` dispatch),
- `src/components/TryOnClient.tsx` (page state and handlers),
- `src/components/ImageUploader.tsx` (upload widget handlers).

External services (Genkit `ai.generate`, the validation model, the
FileReader encoding) are modelled as explicit oracle parameters; React
state updates are modelled as pure state-transition functions.
-/

set_option maxRecDepth 20000

namespace PersonaNet

/-! ## Catalog: src/lib/products.ts -/

/-- The `gender` field of a `Product` ("men" | "women" | "unisex"). -/
inductive Gender where
  | men
  | women
  | unisex
deriving DecidableEq, Repr

/-- The `type` field of a `Product` ("clothing" | "jewelry"). -/
inductive PType where
  | clothing
  | jewelry
deriving DecidableEq, Repr

/-- The `Product` interface of `src/lib/products.ts`. -/
structure Product where
  id : String
  name : String
  gender : Gender
  type : PType
  imageUrl : String
  description : String
  price : String
  hint : String
deriving DecidableEq, Repr

/-- The static `products` array of `src/lib/products.ts`, in source order. -/
def products : List Product := [
  { id := "m-cloth-1", name := "Classic Denim Jacket", gender := .men, type := .clothing,
    imageUrl := "https://images.unsplash.com/photo-1611312449412-6cefac5dc3e4?ixlib=rb-4.0.3&auto=format&fit=crop&w=400&q=80",
    description := "A timeless denim jacket for a rugged look.", price := "$79.99", hint := "denim jacket" },
  { id := "m-cloth-2", name := "Tailored Chinos", gender := .men, type := .clothing,
    imageUrl := "https://images.unsplash.com/photo-1584865288642-42078afe6942?crop=entropy&cs=tinysrgb&fit=max&fm=jpg&ixid=M3w3NDE5ODJ8MHwxfHNlYXJjaHwxfHxjaGlub3N8ZW58MHx8fHwxNzQ4NDk3OTg0fDA&ixlib=rb-4.1.0&q=80&w=1080",
    description := "Versatile chinos for smart-casual occasions.", price := "$59.99", hint := "mens pants" },
  { id := "m-cloth-3", name := "Graphic Print T-Shirt", gender := .men, type := .clothing,
    imageUrl := "https://images.unsplash.com/photo-1583743814966-8936f5b7be1a?ixlib=rb-4.0.3&auto=format&fit=crop&w=400&q=80",
    description := "Comfortable cotton t-shirt with a cool graphic.", price := "$29.99", hint := "mens t-shirt" },
  { id := "m-jewel-1", name := "Silver Link Bracelet", gender := .men, type := .jewelry,
    imageUrl := "https://images.unsplash.com/photo-1611085725151-8390351f4675?ixlib=rb-4.0.3&auto=format&fit=crop&w=400&q=80",
    description := "Sleek silver bracelet to complement any outfit.", price := "$120.00", hint := "mens bracelet" },
  { id := "m-jewel-2", name := "Minimalist Steel Ring", gender := .men, type := .jewelry,
    imageUrl := "https://images.unsplash.com/photo-1627292934211-92054a703852?ixlib=rb-4.0.3&auto=format&fit=crop&w=400&q=80",
    description := "A subtle yet stylish steel ring.", price := "$45.00", hint := "mens ring" },
  { id := "w-cloth-1", name := "Floral Maxi Dress", gender := .women, type := .clothing,
    imageUrl := "https://images.unsplash.com/photo-1594633312681-425c7b97ccd1?ixlib=rb-4.0.3&auto=format&fit=crop&w=400&q=80",
    description := "Elegant floral maxi dress for sunny days.", price := "$89.99", hint := "womens dress" },
  { id := "w-cloth-2", name := "High-Waisted Jeans", gender := .women, type := .clothing,
    imageUrl := "https://images.unsplash.com/photo-1541099649105-f69ad21f3246?ixlib=rb-4.0.3&auto=format&fit=crop&w=400&q=80",
    description := "Flattering high-waisted jeans for a modern silhouette.", price := "$69.99", hint := "womens jeans" },
  { id := "w-cloth-3", name := "Silk Blouse", gender := .women, type := .clothing,
    imageUrl := "https://images.unsplash.com/photo-1623635304894-6917f1999850?ixlib=rb-4.0.3&auto=format&fit=crop&w=400&q=80",
    description := "Luxurious silk blouse for a touch of sophistication.", price := "$99.99", hint := "womens blouse" },
  { id := "w-jewel-1", name := "Pearl Drop Earrings", gender := .women, type := .jewelry,
    imageUrl := "https://images.unsplash.com/photo-1588444968368-eb457yler6e1f9?ixlib=rb-4.0.3&auto=format&fit=crop&w=400&q=80",
    description := "Classic pearl drop earrings for timeless elegance.", price := "$75.00", hint := "earrings" },
  { id := "w-jewel-2", name := "Gold Pendant Necklace", gender := .women, type := .jewelry,
    imageUrl := "https://images.unsplash.com/photo-1617038220319-c6aba0bcf3f2?ixlib=rb-4.0.3&auto=format&fit=crop&w=400&q=80",
    description := "Delicate gold pendant necklace, perfect for layering.", price := "$150.00", hint := "necklace" },
  { id := "u-cloth-1", name := "Basic Hoodie", gender := .unisex, type := .clothing,
    imageUrl := "https://images.unsplash.com/photo-1556821840-3a6375609a7c?ixlib=rb-4.0.3&auto=format&fit=crop&w=400&q=80",
    description := "Comfortable and versatile basic hoodie.", price := "$49.99", hint := "hoodie" },
  { id := "u-jewel-1", name := "Leather Cord Necklace", gender := .unisex, type := .jewelry,
    imageUrl := "https://images.unsplash.com/photo-1508909397440-ea1669407c18?ixlib=rb-4.0.3&auto=format&fit=crop&w=400&q=80",
    description := "Simple leather cord necklace for a casual style.", price := "$30.00", hint := "pendant necklace" }
]

/-- The optional `genderFilter` argument of `getProducts`
    ("men" | "women" | "all", or absent = `none`). -/
inductive GenderFilter where
  | men
  | women
  | all
deriving DecidableEq, Repr

/-- `getProducts` of `src/lib/products.ts`: if the filter is absent or
    `"all"` return the whole catalog, else keep items whose gender equals
    the filter or is `"unisex"`. -/
def getProducts (genderFilter : Option GenderFilter) : List Product :=
  match genderFilter with
  | none => products
  | some .all => products
  | some .men => products.filter (fun p => p.gender == .men || p.gender == .unisex)
  | some .women => products.filter (fun p => p.gender == .women || p.gender == .unisex)

/-- `getProductById` of `src/lib/products.ts`: `products.find(p => p.id === id)`. -/
def getProductById (id : String) : Option Product :=
  products.find? (fun p => p.id == id)

/-- The audience denoted by a filter value: a specific filter admits its own
    tag, and the absent filter and `"all"` admit every audience. A `"unisex"`
    tag (applies to everyone) is admitted by every filter. -/
def audienceMatches (genderFilter : Option GenderFilter) (g : Gender) : Bool :=
  match genderFilter with
  | none => true
  | some .all => true
  | some .men => g == .men || g == .unisex
  | some .women => g == .women || g == .unisex

/-! ## Try-on generation dispatch: src/ai/flows/generate-ai-try-on.ts

The Genkit `ai.generate` call is modelled as an oracle parameter
`gen : GenerationParams → Except String (Option MediaRef)`: a thrown
exception is `.error msg`, a normal return is `.ok media?` where
`media?` is the (possibly absent) `media` field of the response. -/

/-- The `tryOnPromptText` constant of `src/ai/flows/generate-ai-try-on.ts`,
    verbatim: the fixed long-form compositing instruction. -/
def tryOnPromptText : String := "You are VITO, a Virtual Intelligent Try-On specialist and photorealistic VFX compositor with 10+ years in e-commerce and film. Your mission is to overlay exactly one garment onto a user’s photo—nothing else may change.

🎯 INPUTS (passed together, in order)
Input 1: User Image

A photo of a person wearing any clothes.

Contains their face, hair, body and background.

Input 2: Product Image

A photo of one garment only, possibly on a hanger, mannequin or model.

IMPORTANT: The model must respect their ordering.
Input 1 is the canvas, Input 2 is the garment—do not swap or merge.

🔐 1. LOCK THE USER CANVAS
Treat Input 1 as a locked, sacred canvas.

Every pixel outside the clothing region (face, head, hair, skin, body shape, posture, background) must remain bit-for-bit identical in your output.

You may not regenerate, replace, blur or stylize the person or background in any way.

✂️ 2. REMOVE ORIGINAL SHIRT & ISOLATE PRODUCT
Erase the original shirt (or top) from the user image—replace it with transparent space where the new garment will go.

From Input 2, segment only the garment:

Remove all hangers, tags, mannequin parts, background or models.

Do not use any part of the product image’s face, hands, or scene.

🧵 3. RECREATE & FIT THE GARMENT
Re-render the garment alone in photo-realistic detail: seams, stitching, wrinkles, texture, logos, color, collar/sleeve shape exactly as seen in Input 2.

Warp and scale this re-rendered garment onto the user’s torso, shoulders and arms—following the exact pose in Input 1.

Shade its highlights and shadows to match only the lighting in Input 1, leaving skin and hair lighting untouched.

✅ 4. PIXEL-LEVEL DIFF VALIDATION
Composite your recreated garment onto the locked canvas.

Generate a pixel-diff mask against the original user image:

Only pixels within your new garment region may differ.

Zero other pixels may change.

If any non-garment pixel has changed, correct or abort.

❌ ABSOLUTE NO-NOs
Do not alter or hallucinate any facial features, hair, skin tone, body shape or background.

Do not copy any background, arms or face from Input 2.

Do not produce cartoonish, stylized or brush-painted effects: result must be indistinguishable from a genuine photograph.

Do not generalize or substitute a different shirt—use only the exact garment from Input 2.

🔄 WORKFLOW SUMMARY
Receive Input 1 (user) & Input 2 (garment).

Lock user canvas.

Erase old shirt; segment product garment.

Re-render garment; warp + shade to fit.

Composite + diff-check.

Output only if pixel integrity is perfect."

/-- The `model` field of `GenerateAiTryOnInput`: the zod enum
    'googleai/gemini-2.0-flash' | 'imagen3' | 'imagen4'. -/
inductive ModelSel where
  | geminiFlash
  | imagen3
  | imagen4
deriving DecidableEq, Repr

/-- The string value of a `ModelSel`, as it appears in `input.model`. -/
def ModelSel.toStr : ModelSel → String
  | .geminiFlash => "googleai/gemini-2.0-flash"
  | .imagen3 => "imagen3"
  | .imagen4 => "imagen4"

/-- The input object of `generateAiTryOn` (`GenerateAiTryOnInputSchema`). -/
structure GenerateAiTryOnInput where
  userImage : String
  itemImage : String
  model : ModelSel
deriving DecidableEq, Repr

/-- The output object of `generateAiTryOn` (`GenerateAiTryOnOutputSchema`). -/
structure GenerateAiTryOnOutput where
  generatedImage : String
deriving DecidableEq, Repr

/-- One element of the `prompt` array passed to `ai.generate`:
    `\x7b media: \x7b url \x7d \x7d` or `\x7b text \x7d`. -/
inductive PromptPart where
  | media (url : String)
  | text (t : String)
deriving DecidableEq, Repr

/-- The `generationParams` object built in the gemini branch of
    `generateAiTryOn` (model id, prompt array, response modalities,
    temperature). -/
structure GenerationParams where
  model : String
  prompt : List PromptPart
  responseModalities : List String
  temperature : ℚ
deriving DecidableEq, Repr

/-- The `media` object of an `ai.generate` response: its `url` field may be
    absent. -/
structure MediaRef where
  url : Option String
deriving DecidableEq, Repr

/-- JavaScript truthiness of a possibly-absent string: `null`/`undefined`
    and the empty string are falsy. -/
def jsStrTruthy : Option String → Bool
  | none => false
  | some s => !(s == "")

/-- The `!media || !media.url` check of the gemini branch, negated: the
    response carries a truthy media object with a truthy url. -/
def mediaHasUrl : Option MediaRef → Bool
  | none => false
  | some m => jsStrTruthy m.url

/-- The `modelId` string used in the gemini branch of `generateAiTryOn`. -/
def geminiModelId : String := "googleai/gemini-2.0-flash-preview-image-generation"

/-- The `generationParams` value built for input images `u` and `i` in the
    gemini branch: three-part prompt (user image, item image, compositing
    instruction text), TEXT and IMAGE response modalities, temperature 0.2. -/
def geminiGenerationParams (u i : String) : GenerationParams :=
  { model := geminiModelId,
    prompt := [.media u, .media i, .text tryOnPromptText],
    responseModalities := ["TEXT", "IMAGE"],
    temperature := 0.2 }

/-- `generateAiTryOn` of `src/ai/flows/generate-ai-try-on.ts`, with the
    Genkit `ai.generate` call abstracted as the oracle `gen`. The imagen3 /
    imagen4 branch throws immediately (the `_callImagen3WithSDK` helper is
    present in the source but its call is commented out); the gemini branch
    calls `gen` on `geminiGenerationParams`, throws a descriptive error when
    no media url comes back, and wraps every error thrown inside the `try`
    block with a message naming `geminiModelId`. -/
def generateAiTryOn (gen : GenerationParams → Except String (Option MediaRef))
    (input : GenerateAiTryOnInput) : Except String GenerateAiTryOnOutput :=
  match input.model with
  | .imagen3 | .imagen4 =>
      .error ("The selected Imagen model (" ++ input.model.toStr ++
        ") is not supported for this virtual try-on task with the current SDK method (generateContent). Please use Gemini Flash instead.")
  | .geminiFlash =>
      let params := geminiGenerationParams input.userImage input.itemImage
      let inner : Except String GenerateAiTryOnOutput :=
        match gen params with
        | .error e => .error e
        | .ok media =>
            if mediaHasUrl media then
              match media with
              | some { url := some u } => .ok { generatedImage := u }
              | _ => .error ("AI.generate with model " ++ geminiModelId ++
                  " did not return image data in the expected format.")
            else
              .error ("AI.generate with model " ++ geminiModelId ++
                " did not return image data in the expected format.")
      match inner with
      | .error e => .error ("Failed to generate image with " ++ geminiModelId ++ ": " ++ e)
      | .ok o => .ok o

/-! ## Try-on page state: src/components/TryOnClient.tsx

React `useState` fields are gathered into `TryOnState`; each event handler
becomes a pure state-transition function. External calls (`validateImage`,
`generateAiTryOn`) are oracle parameters; toasts are not part of the state
the claims are about and are omitted here (the upload widget, where a claim
mentions the user-visible message, models them explicitly). -/

/-- The `ValidateImageOutput` shape `\x7b isValid, reason, suggestions \x7d`. -/
structure ValidateImageOutput where
  isValid : Bool
  reason : String
  suggestions : String
deriving DecidableEq, Repr

/-- The `useState` fields of the `TryOnClient` component. `userImage` is a
    JS `string | null`: `none` models `null` and `some ""` the empty string
    (both falsy). -/
structure TryOnState where
  userImage : Option String
  validationResult : Option ValidateImageOutput
  selectedModel : String
  generatedImage : Option String
  isLoadingValidation : Bool
  isLoadingGeneration : Bool
  error : Option String
deriving DecidableEq, Repr

/-- The request object `TryOnClient` passes to `generateAiTryOn`
    (`model` is the raw `selectedModel` string state). -/
structure TryOnRequest where
  userImage : String
  itemImage : String
  model : String
deriving DecidableEq, Repr

/-- The optional-chaining check `validationResult?.isValid` coerced to
    boolean: `false` when no result is stored. -/
def validOf : Option ValidateImageOutput → Bool
  | none => false
  | some r => r.isValid

/-- `handleImageUpload` of `TryOnClient`: store the new data URL, reset the
    validation result and the generated image; every other field is kept. -/
def handleImageUpload (dataUrl : String) (s : TryOnState) : TryOnState :=
  { s with userImage := some dataUrl, validationResult := none, generatedImage := none }

/-- The synthetic negative result `handleValidateImage` stores when the
    validation call throws. -/
def syntheticInvalidResult : ValidateImageOutput :=
  { isValid := false, reason := "An error occurred during validation.",
    suggestions := "Please try again or use a different image." }

/-- `handleValidateImage` of `TryOnClient`, with the `validateImage` flow as
    an oracle. Guard `if (!userImage)` returns early (toast only); otherwise
    the result is stored, and a thrown error is caught and replaced by
    `syntheticInvalidResult` while the error message is kept in `error`.
    The final state has `isLoadingValidation` back to `false`. -/
def handleValidateImage (validate : String → Except String ValidateImageOutput)
    (s : TryOnState) : TryOnState :=
  if !(jsStrTruthy s.userImage) then s
  else
    match s.userImage with
    | none => s
    | some img =>
        match validate img with
        | .ok result =>
            { s with validationResult := some result, error := none,
                     isLoadingValidation := false }
        | .error e =>
            { s with validationResult := some syntheticInvalidResult,
                     error := some e, isLoadingValidation := false }

/-- `handleGenerateTryOn` of `TryOnClient`, with `generateAiTryOn` as an
    oracle. Returns the new state and the request actually sent (`none`
    when the guard `if (!userImage || !product || !validationResult?.isValid)`
    returned early; the `product` prop is a typed object, hence never falsy).
    The second component records that the generation service is invoked at
    most once per event. -/
def handleGenerateTryOn (product : Product)
    (callGen : TryOnRequest → Except String GenerateAiTryOnOutput)
    (s : TryOnState) : TryOnState × Option TryOnRequest :=
  if !(jsStrTruthy s.userImage) || !(validOf s.validationResult) then
    (s, none)
  else
    match s.userImage with
    | none => (s, none)
    | some uimg =>
        let req : TryOnRequest :=
          { userImage := uimg, itemImage := product.imageUrl, model := s.selectedModel }
        match callGen req with
        | .ok result =>
            ({ s with generatedImage := some result.generatedImage, error := none,
                      isLoadingGeneration := false }, some req)
        | .error e =>
            ({ s with generatedImage := none, error := some e,
                      isLoadingGeneration := false }, some req)

/-- `isTryOnDisabled` of `TryOnClient`:
    `isLoadingGeneration || !validationResult?.isValid || !userImage`. -/
def isTryOnDisabled (s : TryOnState) : Bool :=
  s.isLoadingGeneration || !(validOf s.validationResult) || !(jsStrTruthy s.userImage)

/-- The `disabled` expression of the Validate Image button:
    `isLoadingValidation || !userImage`. -/
def validateButtonDisabled (s : TryOnState) : Bool :=
  s.isLoadingValidation || !(jsStrTruthy s.userImage)

/-! ## Upload widget: src/components/ImageUploader.tsx -/

/-- The local `useState` fields of `ImageUploader`, plus the value of the
    underlying file-picker control that `handleRemoveImage` resets. -/
structure UploaderState where
  previewUrl : Option String
  fileName : Option String
  inputValue : String
deriving DecidableEq, Repr

/-- A selected browser `File`, with the data URL the `FileReader` would
    produce for it carried as an oracle field. -/
structure JSFile where
  name : String
  size : Nat
  type : String
  dataUrl : String
deriving DecidableEq, Repr

/-- A user-visible toast message. -/
structure ToastMsg where
  title : String
  description : String
deriving DecidableEq, Repr

/-- JavaScript `String.prototype.startsWith`, modelled over the character
    list (`file.type.startsWith('image/')` in the source). -/
def jsStartsWith (s pre : String) : Bool :=
  pre.data.isPrefixOf s.data

/-- The default of the `maxFileSizeMB` prop of `ImageUploader`. -/
def defaultMaxFileSizeMB : Nat := 5

/-- The rejection toast for an oversized file. -/
def fileTooLargeToast (maxFileSizeMB : Nat) : ToastMsg :=
  { title := "File too large",
    description := "Please upload an image smaller than " ++ toString maxFileSizeMB ++ "MB." }

/-- The rejection toast for a non-image file. -/
def invalidFileTypeToast : ToastMsg :=
  { title := "Invalid file type",
    description := "Please upload an image file (e.g., JPG, PNG)." }

/-- `handleFileChange` of `ImageUploader`: returns the new widget state, the
    argument of the `onImageUpload` callback invocation (`none` = callback
    not invoked), and the toast shown (`none` = no toast). Size is checked
    first (`file.size > maxFileSizeMB * 1024 * 1024`), then the media type
    (`jsStartsWith file.type "image/"`); an accepted file is read to a data
    URL which is both previewed and handed to the callback. -/
def handleFileChange (maxFileSizeMB : Nat) (file? : Option JSFile)
    (st : UploaderState) : UploaderState × Option String × Option ToastMsg :=
  match file? with
  | none => (st, none, none)
  | some f =>
      if f.size > maxFileSizeMB * 1024 * 1024 then
        (st, none, some (fileTooLargeToast maxFileSizeMB))
      else if !(jsStartsWith f.type "image/") then
        (st, none, some invalidFileTypeToast)
      else
        ({ st with fileName := some f.name, previewUrl := some f.dataUrl },
         some f.dataUrl, none)

/-- `handleRemoveImage` of `ImageUploader`: clear the preview and file name,
    reset the file-picker control value to `""`, and invoke `onImageUpload`
    with the empty string (second component = the callback argument). -/
def handleRemoveImage (st : UploaderState) : UploaderState × String :=
  ({ st with previewUrl := none, fileName := none, inputValue := "" }, "")

/-- C5: for every audience filter in men/women/all/absent, `getProducts`
    returns exactly the catalog items whose audience tag is admitted by the
    filter (the filter's own tag plus "unisex", i.e. applies to everyone;
    "all"/absent admit every tag), with no duplicates, preserving catalog
    insertion order (the result is a sublist of the catalog). -/
theorem c5_getProducts_audience_filter (f : Option GenderFilter) :
    getProducts f = products.filter (fun p => audienceMatches f p.gender) ∧
    (getProducts f).Nodup ∧
    (getProducts f).Sublist products := by
  have he : getProducts f = products.filter (fun p => audienceMatches f p.gender) := by
    rcases f with _ | g
    · rfl
    · cases g <;> rfl
  have hnd : products.Nodup := by decide
  refine ⟨he, ?_, ?_⟩
  · rw [he]
    exact hnd.filter _
  · rw [he]
    exact List.filter_sublist _

/-- C6: every identifier in the catalog belongs to exactly one item (the id
    column is duplicate-free); `getProductById` returns the unique matching
    item for every identifier present in the catalog, and `none` exactly for
    identifiers matching no item, in particular for "does-not-exist". -/
theorem c6_getProductById_unique_lookup :
    (products.map (fun p => p.id)).Nodup ∧
    (∀ p, p ∈ products → getProductById p.id = some p) ∧
    (∀ i : String, getProductById i = none ↔ ∀ p, p ∈ products → p.id ≠ i) ∧
    getProductById "does-not-exist" = none := by
  refine ⟨by decide, by decide, ?_, by rfl⟩
  intro i
  simp only [getProductById, List.find?_eq_none, beq_iff_eq]

/-- Witness for C6: a concrete present identifier maps to its unique item, and
    the concrete unknown identifier "does-not-exist" maps to `none`. -/
theorem c6_getProductById_unique_lookup_witness :
    getProductById "u-jewel-1" =
      some { id := "u-jewel-1", name := "Leather Cord Necklace", gender := .unisex,
             type := .jewelry,
             imageUrl := "https://images.unsplash.com/photo-1508909397440-ea1669407c18?ixlib=rb-4.0.3&auto=format&fit=crop&w=400&q=80",
             description := "Simple leather cord necklace for a casual style.",
             price := "$30.00", hint := "pendant necklace" } ∧
    getProductById "does-not-exist" = none := by
  have h := c6_getProductById_unique_lookup
  have hp : ({ id := "u-jewel-1", name := "Leather Cord Necklace", gender := .unisex,
               type := .jewelry,
               imageUrl := "https://images.unsplash.com/photo-1508909397440-ea1669407c18?ixlib=rb-4.0.3&auto=format&fit=crop&w=400&q=80",
               description := "Simple leather cord necklace for a casual style.",
               price := "$30.00", hint := "pendant necklace" } : Product) ∈ products := by
    decide
  exact ⟨h.2.1 _ hp, h.2.2.2⟩

/-- C1: for the 'googleai/gemini-2.0-flash' selector, `generateAiTryOn`
    sends a three-part prompt (user image, item image, the fixed compositing
    instruction text) requesting both TEXT and IMAGE response modalities; on
    success the returned media url becomes `generatedImage`; if the external
    call throws, or returns no media or no media url, the call fails with an
    error message naming the attempted model path `geminiModelId`. -/
theorem c1_generateAiTryOn_gemini_contract
    (gen : GenerationParams → Except String (Option MediaRef)) (u i : String) :
    ModelSel.geminiFlash.toStr = "googleai/gemini-2.0-flash" ∧
    ((geminiGenerationParams u i).prompt =
       [PromptPart.media u, PromptPart.media i, PromptPart.text tryOnPromptText] ∧
     (geminiGenerationParams u i).responseModalities = ["TEXT", "IMAGE"] ∧
     (geminiGenerationParams u i).model = geminiModelId) ∧
    (∀ url : String, url ≠ "" →
       gen (geminiGenerationParams u i) = .ok (some ⟨some url⟩) →
       generateAiTryOn gen ⟨u, i, .geminiFlash⟩ = .ok ⟨url⟩) ∧
    (∀ e : String, gen (geminiGenerationParams u i) = .error e →
       generateAiTryOn gen ⟨u, i, .geminiFlash⟩ =
         .error ("Failed to generate image with " ++ geminiModelId ++ ": " ++ e)) ∧
    (∀ media : Option MediaRef, gen (geminiGenerationParams u i) = .ok media →
       mediaHasUrl media = false →
       generateAiTryOn gen ⟨u, i, .geminiFlash⟩ =
         .error ("Failed to generate image with " ++ geminiModelId ++
           ": AI.generate with model " ++ geminiModelId ++
           " did not return image data in the expected format.")) := by
  refine ⟨rfl, ⟨rfl, rfl, rfl⟩, ?_, ?_, ?_⟩
  · intro url hne hok
    simp only [generateAiTryOn, hok, mediaHasUrl, jsStrTruthy, beq_iff_eq]
    simp [hne]
  · intro e herr
    simp only [generateAiTryOn, herr]
  · intro media hok hno
    simp only [generateAiTryOn, hok, hno, Bool.false_eq_true, if_false]
    congr 1

/-- Witness for C1: the three hypothesis-bearing branches evaluated at
    concrete oracles and concrete input images. -/
theorem c1_generateAiTryOn_gemini_contract_witness :
    generateAiTryOn (fun _ => .ok (some ⟨some "data:image/png;base64,QUJD"⟩))
        ⟨"u", "i", .geminiFlash⟩ = .ok ⟨"data:image/png;base64,QUJD"⟩ ∧
    generateAiTryOn (fun _ => .error "network down") ⟨"u", "i", .geminiFlash⟩ =
      .error ("Failed to generate image with " ++ geminiModelId ++ ": network down") ∧
    generateAiTryOn (fun _ => .ok none) ⟨"u", "i", .geminiFlash⟩ =
      .error ("Failed to generate image with " ++ geminiModelId ++
        ": AI.generate with model " ++ geminiModelId ++
        " did not return image data in the expected format.") := by
  refine ⟨?_, ?_, ?_⟩
  · exact (c1_generateAiTryOn_gemini_contract
      (fun _ => .ok (some ⟨some "data:image/png;base64,QUJD"⟩)) "u" "i").2.2.1
      "data:image/png;base64,QUJD" (by decide) rfl
  · exact (c1_generateAiTryOn_gemini_contract
      (fun _ => .error "network down") "u" "i").2.2.2.1 "network down" rfl
  · exact (c1_generateAiTryOn_gemini_contract
      (fun _ => .ok none) "u" "i").2.2.2.2 none rfl rfl

/-- C2: for the 'imagen3' and 'imagen4' selectors, `generateAiTryOn` fails
    immediately with an error naming the selected model, and the result does
    not depend on the external oracle at all (no SDK call, no fallback to the
    other strategies: exactly one strategy — immediate failure — is active). -/
theorem c2_generateAiTryOn_imagen_rejected
    (gen gen2 : GenerationParams → Except String (Option MediaRef)) (u i : String) :
    generateAiTryOn gen ⟨u, i, .imagen3⟩ =
      .error ("The selected Imagen model (imagen3) is not supported for this virtual try-on task with the current SDK method (generateContent). Please use Gemini Flash instead.") ∧
    generateAiTryOn gen ⟨u, i, .imagen4⟩ =
      .error ("The selected Imagen model (imagen4) is not supported for this virtual try-on task with the current SDK method (generateContent). Please use Gemini Flash instead.") ∧
    generateAiTryOn gen ⟨u, i, .imagen3⟩ = generateAiTryOn gen2 ⟨u, i, .imagen3⟩ ∧
    generateAiTryOn gen ⟨u, i, .imagen4⟩ = generateAiTryOn gen2 ⟨u, i, .imagen4⟩ :=
  ⟨rfl, rfl, rfl, rfl⟩

/-- C3: with a non-empty user image present, a validation call that throws is
    caught and stored as the synthetic negative result (isValid false, generic
    reason, generic suggestion); a normal model answer is stored as returned;
    in both cases the stored result is a structured `ValidateImageOutput`, so
    within the `validationResult` channel a transport failure is shaped
    exactly like a model "no". -/
theorem c3_validation_error_synthetic_negative
    (validate : String → Except String ValidateImageOutput) (s : TryOnState)
    (img : String) (himg : s.userImage = some img) (hne : img ≠ "") :
    (∀ e, validate img = .error e →
       (handleValidateImage validate s).validationResult = some syntheticInvalidResult ∧
       syntheticInvalidResult.isValid = false) ∧
    (∀ r, validate img = .ok r →
       (handleValidateImage validate s).validationResult = some r) ∧
    (handleValidateImage validate s).validationResult.isSome = true := by
  have ht : jsStrTruthy s.userImage = true := by
    rw [himg]
    simp [jsStrTruthy, hne]
  refine ⟨?_, ?_, ?_⟩
  · intro e he
    refine ⟨?_, rfl⟩
    simp [handleValidateImage, himg, he, jsStrTruthy, hne]
  · intro r hr
    simp [handleValidateImage, himg, hr, jsStrTruthy, hne]
  · cases hv : validate img <;>
      simp [handleValidateImage, himg, hv, jsStrTruthy, hne]

/-- Witness for C3: a concrete page state and a validation oracle that
    throws; the stored result is the synthetic negative one. -/
theorem c3_validation_error_synthetic_negative_witness :
    (handleValidateImage (fun _ => .error "network down")
        ⟨some "data:image/png;base64,QUJD", none, "googleai/gemini-2.0-flash",
         none, false, false, none⟩).validationResult =
      some syntheticInvalidResult := by
  exact ((c3_validation_error_synthetic_negative (fun _ => .error "network down")
    ⟨some "data:image/png;base64,QUJD", none, "googleai/gemini-2.0-flash",
     none, false, false, none⟩ "data:image/png;base64,QUJD" rfl
    (by decide)).1 "network down" rfl).1

/-- C4: in every state in which no truthy user image is present or the most
    recent validation result is not a success, the generate button is
    disabled and `handleGenerateTryOn` returns without invoking the
    generation service (guard enforced in the UI handler; `generateAiTryOn`
    itself takes no validation evidence). -/
theorem c4_generate_requires_validation
    (s : TryOnState) (product : Product)
    (callGen : TryOnRequest → Except String GenerateAiTryOnOutput)
    (h : ¬(jsStrTruthy s.userImage = true ∧ validOf s.validationResult = true)) :
    isTryOnDisabled s = true ∧ (handleGenerateTryOn product callGen s).2 = none := by
  cases hu : jsStrTruthy s.userImage with
  | false =>
      exact ⟨by simp [isTryOnDisabled, hu], by simp [handleGenerateTryOn, hu]⟩
  | true =>
      cases hv : validOf s.validationResult with
      | false =>
          exact ⟨by simp [isTryOnDisabled, hv], by simp [handleGenerateTryOn, hv]⟩
      | true => exact absurd ⟨hu, hv⟩ h

/-- Witness for C4: the freshly loaded page state (no image, no validation)
    has the generate button disabled and sends no generation request. -/
theorem c4_generate_requires_validation_witness :
    isTryOnDisabled
        ⟨none, none, "googleai/gemini-2.0-flash", none, false, false, none⟩ = true ∧
    (handleGenerateTryOn ⟨"p", "n", .men, .clothing, "u", "d", "$0", "h"⟩
        (fun _ => .error "never called")
        ⟨none, none, "googleai/gemini-2.0-flash", none, false, false, none⟩).2 = none := by
  exact c4_generate_requires_validation
    ⟨none, none, "googleai/gemini-2.0-flash", none, false, false, none⟩
    ⟨"p", "n", .men, .clothing, "u", "d", "$0", "h"⟩
    (fun _ => .error "never called") (by decide)

/-- C7: a selected file strictly larger than the ceiling, or one whose media
    type is not an image type, is rejected with the user-visible toast and
    the upload callback is not invoked; an accepted file is handed to the
    callback exactly once as its data URL, with no toast. -/
theorem c7_upload_widget_reject_accept
    (mb : Nat) (f : JSFile) (st : UploaderState) :
    (f.size > mb * 1024 * 1024 →
       (handleFileChange mb (some f) st).2.1 = none ∧
       (handleFileChange mb (some f) st).2.2 = some (fileTooLargeToast mb)) ∧
    (f.size ≤ mb * 1024 * 1024 → jsStartsWith f.type "image/" = false →
       (handleFileChange mb (some f) st).2.1 = none ∧
       (handleFileChange mb (some f) st).2.2 = some invalidFileTypeToast) ∧
    (f.size ≤ mb * 1024 * 1024 → jsStartsWith f.type "image/" = true →
       (handleFileChange mb (some f) st).2.1 = some f.dataUrl ∧
       (handleFileChange mb (some f) st).2.2 = none) := by
  refine ⟨?_, ?_, ?_⟩
  · intro h
    simp [handleFileChange, h]
  · intro h hT
    simp only [handleFileChange]
    rw [if_neg (Nat.not_lt.mpr h)]
    simp [hT]
  · intro h hT
    simp only [handleFileChange]
    rw [if_neg (Nat.not_lt.mpr h)]
    simp [hT]

/-- Witness for C7: with the default 5 MB ceiling, an oversized image file
    and a text file are rejected without callback, and a small image file is
    handed to the callback as its data URL. -/
theorem c7_upload_widget_reject_accept_witness :
    (handleFileChange defaultMaxFileSizeMB
        (some ⟨"big.png", 5 * 1024 * 1024 + 1, "image/png", "data:image/png;base64,QUJD"⟩)
        ⟨none, none, ""⟩).2.1 = none ∧
    (handleFileChange defaultMaxFileSizeMB
        (some ⟨"doc.txt", 1000, "text/plain", "data:text/plain;base64,QUJD"⟩)
        ⟨none, none, ""⟩).2.1 = none ∧
    (handleFileChange defaultMaxFileSizeMB
        (some ⟨"ok.png", 1000, "image/png", "data:image/png;base64,QUJD"⟩)
        ⟨none, none, ""⟩).2.1 = some "data:image/png;base64,QUJD" := by
  refine ⟨?_, ?_, ?_⟩
  · exact ((c7_upload_widget_reject_accept defaultMaxFileSizeMB
      ⟨"big.png", 5 * 1024 * 1024 + 1, "image/png", "data:image/png;base64,QUJD"⟩
      ⟨none, none, ""⟩).1 (by decide)).1
  · exact ((c7_upload_widget_reject_accept defaultMaxFileSizeMB
      ⟨"doc.txt", 1000, "text/plain", "data:text/plain;base64,QUJD"⟩
      ⟨none, none, ""⟩).2.1 (by decide) (by decide)).1
  · exact ((c7_upload_widget_reject_accept defaultMaxFileSizeMB
      ⟨"ok.png", 1000, "image/png", "data:image/png;base64,QUJD"⟩
      ⟨none, none, ""⟩).2.2 (by decide) (by decide)).1

/-- C8: on every new accepted upload the try-on page discards the stored
    validation result and the generated image, stores the new user image,
    and leaves the selected model unchanged. -/
theorem c8_upload_resets_results (dataUrl : String) (s : TryOnState) :
    (handleImageUpload dataUrl s).validationResult = none ∧
    (handleImageUpload dataUrl s).generatedImage = none ∧
    (handleImageUpload dataUrl s).selectedModel = s.selectedModel ∧
    (handleImageUpload dataUrl s).userImage = some dataUrl :=
  ⟨rfl, rfl, rfl, rfl⟩

/-- C9: a file whose size equals the ceiling exactly is not rejected for
    size: with an image media type it is accepted and handed to the
    callback (the size check rejects only strictly larger files). -/
theorem c9_exact_size_boundary_accepted
    (mb : Nat) (st : UploaderState) (f : JSFile)
    (hsize : f.size = mb * 1024 * 1024)
    (htype : jsStartsWith f.type "image/" = true) :
    (handleFileChange mb (some f) st).2.1 = some f.dataUrl ∧
    (handleFileChange mb (some f) st).2.2 = none := by
  simp only [handleFileChange]
  rw [if_neg (by omega)]
  simp [htype]

/-- Witness for C9: a 5242880-byte (= 5 × 1024 × 1024) image file under the
    default 5 MB ceiling is accepted. -/
theorem c9_exact_size_boundary_accepted_witness :
    (handleFileChange defaultMaxFileSizeMB
        (some ⟨"b.png", 5242880, "image/png", "data:image/png;base64,QUJD"⟩)
        ⟨none, none, ""⟩).2.1 = some "data:image/png;base64,QUJD" := by
  exact (c9_exact_size_boundary_accepted defaultMaxFileSizeMB ⟨none, none, ""⟩
    ⟨"b.png", 5242880, "image/png", "data:image/png;base64,QUJD"⟩
    (by decide) (by decide)).1

/-- C10: explicit removal clears the preview, the file name and the
    file-picker control value, and invokes the upload callback with the
    empty string; feeding that callback argument to the parent's
    `handleImageUpload` makes the stored user image the (falsy) empty
    string, so both the validate and the generate actions are disabled. -/
theorem c10_remove_image_disables_actions (ust : UploaderState) (s : TryOnState) :
    (handleRemoveImage ust).2 = "" ∧
    (handleRemoveImage ust).1.previewUrl = none ∧
    (handleRemoveImage ust).1.fileName = none ∧
    (handleRemoveImage ust).1.inputValue = "" ∧
    (handleImageUpload (handleRemoveImage ust).2 s).userImage = some "" ∧
    isTryOnDisabled (handleImageUpload (handleRemoveImage ust).2 s) = true ∧
    validateButtonDisabled (handleImageUpload (handleRemoveImage ust).2 s) = true := by
  refine ⟨rfl, rfl, rfl, rfl, rfl, ?_, ?_⟩
  · simp [isTryOnDisabled, handleImageUpload, handleRemoveImage, jsStrTruthy, validOf]
  · simp [validateButtonDisabled, handleImageUpload, handleRemoveImage, jsStrTruthy]

end PersonaNet
